import Mathlib

/-!
Shallow embedding of the labrpc network fabric (src/labrpc/src/lib.rs).

Hash maps are embedded as finite partial maps `String → Option β`; a
`none` result of an operation that indexes a map models the Rust panic
of `HashMap::Index` / `Option::unwrap`.  Randomness is embedded as an
explicit list of generator outputs consumed in order; `gen_range(a, b)`
becomes `a + draw % (b - a)` and `gen::<u64>() % m` becomes `draw % m`.
Request and reply byte strings are `List Nat`.  The network-wide
`total_count` counter (lib.rs:330) is not modelled: no claim concerns it.
-/

/-- Modelled from the spec: the error enum of `mod error`
(src/labrpc/src/error.rs is not present under src/); the variants are
the error kinds of spec section 7: Encode, Decode, Unimplemented,
Timeout, Recv, Stopped and the Rpc wrapper. -/
inductive RpcError where
  | Encode
  | Decode
  | Unimplemented (msg : String)
  | Timeout
  | Recv
  | Stopped
  | Rpc (inner : String)
deriving DecidableEq, Repr

/-- A handler `Fn(&[u8], &mut Vec<u8>) -> Result<()>` (lib.rs:49); the
bytes written into the output buffer are the payload of `ok`. -/
def HandlerFn : Type := List Nat → Except RpcError (List Nat)

/-- Overwriting insert on a map embedded as a function, the semantics of
`HashMap::insert`. -/
def mapInsert {β : Type} (m : String → Option β) (k : String) (v : β) :
    String → Option β :=
  fun n => if n = k then some v else m n

/-- `ServerCore` (lib.rs:81-87): name, globally unique id, handler map and
dispatch counter. -/
structure ServerCore where
  name : String
  id : Nat
  services : String → Option HandlerFn
  count : Nat

/-- `ServerBuilder` (lib.rs:51-54). -/
structure ServerBuilder where
  name : String
  services : String → Option HandlerFn

/-- `ServerBuilder::add_handler` (lib.rs:64-67). -/
def ServerBuilder.add_handler (b : ServerBuilder) (fq_name : String)
    (handler : HandlerFn) : ServerBuilder :=
  { b with services := mapInsert b.services fq_name handler }

/-- `ServerBuilder::build` (lib.rs:69-78): the id is drawn from the
process-wide `ID_ALLOC` counter by `fetch_add(1)`; the allocator state is
threaded explicitly, the pair is (built server, allocator after). -/
def ServerBuilder.build (b : ServerBuilder) (idAlloc : Nat) :
    ServerCore × Nat :=
  ({ name := b.name, services := b.services, id := idAlloc, count := 0 },
   idAlloc + 1)

/-- `Server::dispatch` (lib.rs:103-110): increment the counter, then look
the fully qualified name up; on a miss return `Unimplemented`, otherwise
the handler's result.  Returns (dispatch result, server after). -/
def Server.dispatch (s : ServerCore) (fq_name : String) (req : List Nat) :
    Except RpcError (List Nat) × ServerCore :=
  let s' := { s with count := s.count + 1 }
  match s.services fq_name with
  | some handle => (handle req, s')
  | none => (Except.error (RpcError.Unimplemented ("unknown " ++ fq_name)), s')

/-- `Endpoints` (lib.rs:182-191): the three registry maps. -/
structure Endpoints where
  enabled : String → Option Bool
  servers : String → Option (Option ServerCore)
  connections : String → Option (Option String)

/-- The empty registry of a fresh `Network` (lib.rs:224-228). -/
def epsEmpty : Endpoints :=
  { enabled := fun _ => none
    servers := fun _ => none
    connections := fun _ => none }

/-- `Network::add_server` (lib.rs:250-253): overwrite the slot under the
server's name with the live server. -/
def Network.add_server (eps : Endpoints) (server : ServerCore) : Endpoints :=
  { eps with servers := mapInsert eps.servers server.name (some server) }

/-- `Network::delete_server` (lib.rs:255-258): install a tombstone; the
key stays present. -/
def Network.delete_server (eps : Endpoints) (name : String) : Endpoints :=
  { eps with servers := mapInsert eps.servers name none }

/-- `Network::create_end` (lib.rs:260-266): register the end disabled and
unconnected. -/
def Network.create_end (eps : Endpoints) (end_name : String) : Endpoints :=
  { eps with
    enabled := mapInsert eps.enabled end_name false
    connections := mapInsert eps.connections end_name none }

/-- `Network::connect` (lib.rs:270-273). -/
def Network.connect (eps : Endpoints) (end_name server_name : String) :
    Endpoints :=
  { eps with
    connections := mapInsert eps.connections end_name (some server_name) }

/-- `Network::enable` (lib.rs:276-284). -/
def Network.enable (eps : Endpoints) (end_name : String) (enabled : Bool) :
    Endpoints :=
  { eps with enabled := mapInsert eps.enabled end_name enabled }

/-- `Network::count` (lib.rs:298-301): `eps.servers[server_name]` panics
when the key is absent and `.unwrap()` panics on a tombstone; both are
`none` here. -/
def Network.count (eps : Endpoints) (server_name : String) : Option Nat :=
  match eps.servers server_name with
  | some (some s) => some s.count
  | some none => none
  | none => none

/-- `EndInfo` (lib.rs:174-180): the snapshot a processor decides against. -/
structure EndInfo where
  enabled : Bool
  reliable : Bool
  long_reordering : Bool
  server : Option ServerCore

/-- `Network::end_info` (lib.rs:307-319): when the end is connected to a
server name, `eps.servers[server_name]` panics (here `none`) if that key
is absent; `eps.enabled[end_name]` panics if the end name is unknown. -/
def Network.end_info (eps : Endpoints) (reliable long_reordering : Bool)
    (end_name : String) : Option EndInfo :=
  let serverOpt : Option (Option ServerCore) :=
    match eps.connections end_name with
    | some (some server_name) => eps.servers server_name
    | _ => some none
  match serverOpt, eps.enabled end_name with
  | some server, some en =>
      some { enabled := en, reliable := reliable,
             long_reordering := long_reordering, server := server }
  | _, _ => none

/-- `Network::is_server_dead` (lib.rs:321-327): `eps.enabled[end_name]`
panics (`none`) on an unknown end name; otherwise the disjunction of
endpoint disabled, key absent (`map_or(true, ..)`), tombstone
(`unwrap_or(true)`) and id mismatch. -/
def Network.is_server_dead (eps : Endpoints) (end_name server_name : String)
    (server_id : Nat) : Option Bool :=
  match eps.enabled end_name with
  | none => none
  | some en =>
      some (!en ||
        (match eps.servers server_name with
         | none => true
         | some none => true
         | some (some s) => s.id != server_id))

/-- One output of the thread-local random generator; the generator is
embedded as the list of values it will produce, consumed in order. -/
def rngNext : List Nat → Nat × List Nat
  | [] => (0, [])
  | x :: xs => (x, xs)

/-- `ProcessState` (lib.rs:432-446); delays are in milliseconds. -/
inductive ProcessState where
  | Timeout (delay : Nat)
  | Dispatch (delay : Option Nat) (server : ServerCore) (drop_reply : Bool)
      (long_reordering : Option Nat)
  | Reordering (delay : Nat) (resp : Option (List Nat))

/-- `Network::process_rpc` (lib.rs:329-413) minus the `total_count`
increment: decide the initial processor state from the `EndInfo`
snapshot, the `long_delays` flag and the generator stream, drawing in
the source's order (short delay, request drop, reply drop, reordering). -/
def Network.process_rpc (info : EndInfo) (long_delays : Bool)
    (rng : List Nat) : ProcessState :=
  match info.server, info.enabled with
  | some server, true =>
      let step1 : Option Nat × List Nat :=
        if !info.reliable then
          (some ((rngNext rng).1 % 27), (rngNext rng).2)
        else (none, rng)
      let short_delay := step1.1
      let step2 : Bool × List Nat :=
        if !info.reliable then
          (decide ((rngNext step1.2).1 % 1000 < 100), (rngNext step1.2).2)
        else (false, step1.2)
      if step2.1 then
        ProcessState.Timeout (short_delay.getD 0)
      else
        let step3 : Bool × List Nat :=
          if !info.reliable then
            (decide ((rngNext step2.2).1 % 1000 < 100), (rngNext step2.2).2)
          else (false, step2.2)
        let drop_reply := step3.1
        let reorder : Option Nat :=
          if info.long_reordering then
            let r := rngNext step3.2
            if r.1 % 900 < 600 then
              let r2 := rngNext r.2
              let upper := 1 + r2.1 % 2000
              let r3 := rngNext r2.2
              some (200 + r3.1 % upper)
            else none
          else none
        ProcessState.Dispatch short_delay server drop_reply reorder
  | _, _ =>
      let r := rngNext rng
      let ms := if long_delays then r.1 % 7000 else r.1 % 100
      ProcessState.Timeout ms

/-- What the caller's end of the single-shot sink can observe. -/
structure RunOutcome where
  sends : List (Except RpcError (List Nat))
  dispatched : Option ServerCore
  delays : List Nat

/-- `resp.send(v).unwrap()`: on a `sync_channel(1)` whose receiver was
dropped, `send` returns an error, and `.unwrap()` panics (`none`). -/
def sendTo (sinkOpen : Bool) (v : Except RpcError (List Nat)) :
    Option (List (Except RpcError (List Nat))) :=
  if sinkOpen then some [v] else none

/-- `<ProcessRpc as Future>::poll` (lib.rs:472-541) run to completion
from a given state: the delays paid, the value sent to the sink and the
server state after any dispatch.  `none` models a panic (a send whose
`.unwrap()` fails, an `is_server_dead` map panic, or
`resp.take().unwrap()` on an empty reorder buffer). -/
def runProcessor (eps : Endpoints) (end_name fq_name : String)
    (req : List Nat) (sinkOpen : Bool) : ProcessState → Option RunOutcome
  | ProcessState.Timeout d => do
      let s ← sendTo sinkOpen (Except.error RpcError.Timeout)
      pure ⟨s, none, [d]⟩
  | ProcessState.Dispatch delay server drop_reply long_reordering => do
      let res := Server.dispatch server fq_name req
      match res.1 with
      | Except.error e => do
          let s ← sendTo sinkOpen (Except.error e)
          pure ⟨s, some res.2, delay.toList⟩
      | Except.ok buf => do
          let dead ← Network.is_server_dead eps end_name server.name server.id
          if dead then do
            let s ← sendTo sinkOpen (Except.error RpcError.Timeout)
            pure ⟨s, some res.2, delay.toList⟩
          else if drop_reply then do
            let s ← sendTo sinkOpen (Except.error RpcError.Timeout)
            pure ⟨s, some res.2, delay.toList⟩
          else
            match long_reordering with
            | some reord => do
                let s ← sendTo sinkOpen (Except.ok buf)
                pure ⟨s, some res.2, delay.toList ++ [reord]⟩
            | none => do
                let s ← sendTo sinkOpen (Except.ok buf)
                pure ⟨s, some res.2, delay.toList⟩
  | ProcessState.Reordering d resp => do
      let buf ← resp
      let s ← sendTo sinkOpen (Except.ok buf)
      pure ⟨s, none, [d]⟩

/-- What `rx.recv()` in `ClientEnd::call` can observe on the sink. -/
inductive SinkOutcome where
  | closed
  | value (v : Except RpcError (List Nat))

/-- Modelled from the spec: `labcodec::decode` lives outside src/; the
spec keeps the fabric at the byte level (section 1: the fabric handles
only bytes; section 4.3: on `Ok(bytes)` return the bytes), so decoding a
reply is the identity on its bytes. -/
def labcodec.decode (bytes : List Nat) : Except RpcError (List Nat) :=
  Except.ok bytes

/-- `ClientEnd::call` (lib.rs:147-171): encode (result passed in, since
`labcodec::encode` is outside src/), submit to the ingress — `Stopped`
when it is closed — then block on the sink: `Recv` when the channel
closes without a value, a received error verbatim, received bytes
decoded. -/
def ClientEnd.call (encoded : Except RpcError (List Nat))
    (ingressOpen : Bool) (sink : SinkOutcome) : Except RpcError (List Nat) :=
  match encoded with
  | Except.error e => Except.error e
  | Except.ok _ =>
      if ingressOpen then
        match sink with
        | SinkOutcome.closed => Except.error RpcError.Recv
        | SinkOutcome.value (Except.error e) => Except.error e
        | SinkOutcome.value (Except.ok resp) => labcodec.decode resp
      else Except.error RpcError.Stopped

/-- C7: `Server.dispatch` increments the server's counter by exactly one
on every call, including for unknown methods; an `fq_name` absent from
the handler map yields `Unimplemented` without invoking any handler; a
registered handler's result is returned verbatim. -/
theorem dispatch_spec (s : ServerCore) (fq_name : String) (req : List Nat) :
    (Server.dispatch s fq_name req).2 = { s with count := s.count + 1 } ∧
    (s.services fq_name = none →
      (Server.dispatch s fq_name req).1 =
        Except.error (RpcError.Unimplemented ("unknown " ++ fq_name))) ∧
    (∀ handle, s.services fq_name = some handle →
      (Server.dispatch s fq_name req).1 = handle req) := by
  refine ⟨?_, ?_, ?_⟩
  · cases h : s.services fq_name <;> simp [Server.dispatch, h]
  · intro h
    simp [Server.dispatch, h]
  · intro handle h
    simp [Server.dispatch, h]

/-- A sample handler: prepend a zero byte to the request. -/
def hOk : HandlerFn := fun req => Except.ok (0 :: req)

/-- A sample server with the single handler `junk.handler4`. -/
def srvA : ServerCore :=
  { name := "test"
    id := 0
    services := mapInsert (fun _ => none) "junk.handler4" hOk
    count := 0 }

theorem dispatch_spec_witness :
    (Server.dispatch srvA "junk.handler4" [1]).2.count = srvA.count + 1 ∧
    (Server.dispatch srvA "nope" [1]).1 =
      Except.error (RpcError.Unimplemented ("unknown " ++ "nope")) ∧
    (Server.dispatch srvA "junk.handler4" [1]).1 = Except.ok [0, 1] :=
  ⟨by rw [(dispatch_spec srvA "junk.handler4" [1]).1],
   (dispatch_spec srvA "nope" [1]).2.1 rfl,
   by rw [(dispatch_spec srvA "junk.handler4" [1]).2.2 hOk rfl]; rfl⟩

/-- C10: registry writes are idempotent: `enable(e, b)` twice in
succession leaves the registry exactly as one call does. -/
theorem enable_idempotent (eps : Endpoints) (e : String) (b : Bool) :
    Network.enable (Network.enable eps e b) e b = Network.enable eps e b := by
  simp only [Network.enable]
  congr 1
  funext n
  by_cases h : n = e <;> simp [mapInsert, h]

/-- C8: `ClientEnd.call` returns `Stopped` when the ingress is closed at
submission time, `Recv` when the reply channel closes without a value,
propagates a received error verbatim, and returns received reply bytes. -/
theorem call_spec (req : List Nat) :
    (∀ sink, ClientEnd.call (Except.ok req) false sink =
      Except.error RpcError.Stopped) ∧
    (ClientEnd.call (Except.ok req) true SinkOutcome.closed =
      Except.error RpcError.Recv) ∧
    (∀ e, ClientEnd.call (Except.ok req) true
        (SinkOutcome.value (Except.error e)) = Except.error e) ∧
    (∀ bytes, ClientEnd.call (Except.ok req) true
        (SinkOutcome.value (Except.ok bytes)) = Except.ok bytes) :=
  ⟨fun _ => rfl, rfl, fun _ => rfl, fun _ => rfl⟩

/-- C9: registry reads panic on missing keys: `end_info` on an end name
never registered, `end_info` when the connected server name was never
added and never deleted, `is_server_dead` on an unknown end name, and
`count` on an absent name or a tombstone, are all panics (`none`). -/
theorem registry_panics (eps : Endpoints) (end_name server_name : String)
    (rel lr : Bool) (server_id : Nat) :
    (eps.enabled end_name = none →
      Network.end_info eps rel lr end_name = none) ∧
    (eps.connections end_name = some (some server_name) →
      eps.servers server_name = none →
      Network.end_info eps rel lr end_name = none) ∧
    (eps.enabled end_name = none →
      Network.is_server_dead eps end_name server_name server_id = none) ∧
    ((eps.servers server_name = none ∨ eps.servers server_name = some none) →
      Network.count eps server_name = none) := by
  refine ⟨?_, ?_, ?_, ?_⟩
  · intro h
    unfold Network.end_info
    rcases hc : eps.connections end_name with _ | (_ | sn) <;> simp [h, hc]
  · intro hc hs
    unfold Network.end_info
    simp [hc, hs]
  · intro h
    simp [Network.is_server_dead, h]
  · rintro (h | h) <;> simp [Network.count, h]

theorem registry_panics_witness :
    Network.end_info epsEmpty true false "e" = none ∧
    Network.end_info (Network.connect epsEmpty "e" "s") true false "e" = none ∧
    Network.is_server_dead epsEmpty "e" "s" 0 = none ∧
    Network.count epsEmpty "s" = none ∧
    Network.count (Network.delete_server epsEmpty "s") "s" = none :=
  ⟨(registry_panics epsEmpty "e" "s" true false 0).1 rfl,
   (registry_panics (Network.connect epsEmpty "e" "s") "e" "s" true false 0).2.1
     rfl rfl,
   (registry_panics epsEmpty "e" "s" true false 0).2.2.1 rfl,
   (registry_panics epsEmpty "e" "s" true false 0).2.2.2 (Or.inl rfl),
   (registry_panics (Network.delete_server epsEmpty "s") "e" "s" true false
     0).2.2.2 (Or.inr rfl)⟩

/-- C1: at the failing input — a terminal write to a sink whose receiver
the caller has already dropped — the processor panics (`none` here):
`resp.send(..).unwrap()` does not swallow the send error; with the
receiver alive, exactly one terminal result is written. -/
theorem send_unwrap_panics :
    runProcessor epsEmpty "e" "m" [] true (ProcessState.Timeout 5) =
      some ⟨[Except.error RpcError.Timeout], none, [5]⟩ ∧
    runProcessor epsEmpty "e" "m" [] false (ProcessState.Timeout 5) = none :=
  ⟨rfl, rfl⟩

/-- Helper: when dispatch succeeded but the liveness re-check finds the
server dead, the processor sends `Err(Timeout)` (the dispatch side effect
on the counter stands). -/
theorem runProcessor_ok_dead (eps : Endpoints) (end_name fq_name : String)
    (req buf : List Nat) (server : ServerCore) (d : Option Nat)
    (drop_reply : Bool) (reord : Option Nat)
    (hok : (Server.dispatch server fq_name req).1 = Except.ok buf)
    (hdead : Network.is_server_dead eps end_name server.name server.id =
      some true) :
    runProcessor eps end_name fq_name req true
        (ProcessState.Dispatch d server drop_reply reord) =
      some ⟨[Except.error RpcError.Timeout],
            some (Server.dispatch server fq_name req).2, d.toList⟩ := by
  simp [runProcessor, hok, hdead, sendTo]

/-- C2: for a dispatched envelope, after the optional short delay and the
call to `Server.dispatch`, the reply is chosen in strict priority order:
a dispatch error verbatim; else `Err(Timeout)` if the server is dead at
that moment; else `Err(Timeout)` if the reply drop was drawn; else
`Ok(reply bytes)` after the long-reordering delay when one was drawn;
else `Ok(reply bytes)` immediately. -/
theorem dispatch_priority (eps : Endpoints) (end_name fq_name : String)
    (req : List Nat) (server : ServerCore) (d : Option Nat)
    (drop_reply : Bool) (reord : Option Nat) (dead : Bool)
    (hdead : Network.is_server_dead eps end_name server.name server.id =
      some dead) :
    runProcessor eps end_name fq_name req true
        (ProcessState.Dispatch d server drop_reply reord) =
      some { sends := [
               match (Server.dispatch server fq_name req).1 with
               | Except.error e => Except.error e
               | Except.ok buf =>
                   if dead then Except.error RpcError.Timeout
                   else if drop_reply then Except.error RpcError.Timeout
                   else Except.ok buf],
             dispatched := some (Server.dispatch server fq_name req).2,
             delays :=
               match (Server.dispatch server fq_name req).1 with
               | Except.error _ => d.toList
               | Except.ok _ =>
                   if !dead && !drop_reply then d.toList ++ reord.toList
                   else d.toList } := by
  rcases hres : (Server.dispatch server fq_name req).1 with e | buf <;>
    cases dead <;> cases drop_reply <;> rcases reord with _ | r <;>
      simp [runProcessor, hres, hdead, sendTo]

/-- A registry holding `srvA` with end `e` enabled. -/
def epsB : Endpoints :=
  Network.enable (Network.add_server epsEmpty srvA) "e" true

theorem dispatch_priority_witness :
    Network.is_server_dead epsB "e" srvA.name srvA.id = some false ∧
    runProcessor epsB "e" "junk.handler4" [1] true
        (ProcessState.Dispatch (some 3) srvA false (some 250)) =
      some ⟨[Except.ok [0, 1]], some { srvA with count := srvA.count + 1 },
            [3, 250]⟩ :=
  ⟨rfl,
   by
     rw [dispatch_priority epsB "e" "junk.handler4" [1] srvA (some 3) false
       (some 250) false rfl]
     rfl⟩

/-- C3: `is_server_dead` is `true` iff the endpoint is disabled, or no
entry is registered under the server name, or the entry is a tombstone,
or the registered server's id differs; and being evaluated after the
handler returns, a `delete_server` racing with an in-flight request
suppresses the otherwise successful reply with `Err(Timeout)`. -/
theorem is_server_dead_spec (eps : Endpoints) (end_name server_name : String)
    (server_id : Nat) (en : Bool)
    (h : eps.enabled end_name = some en) :
    (Network.is_server_dead eps end_name server_name server_id = some true ↔
      (en = false ∨ eps.servers server_name = none ∨
       eps.servers server_name = some none ∨
       ∃ s : ServerCore, eps.servers server_name = some (some s) ∧
         s.id ≠ server_id)) ∧
    (∀ (server : ServerCore) (fq_name : String) (req buf : List Nat)
        (d reord : Option Nat),
      (Server.dispatch server fq_name req).1 = Except.ok buf →
      runProcessor (Network.delete_server eps server.name) end_name fq_name
          req true (ProcessState.Dispatch d server false reord) =
        some ⟨[Except.error RpcError.Timeout],
              some (Server.dispatch server fq_name req).2, d.toList⟩) := by
  constructor
  · rcases hs : eps.servers server_name with _ | (_ | s) <;> cases en <;>
      simp [Network.is_server_dead, h, hs, bne_iff_ne]
  · intro server fq_name req buf d reord hok
    have hdead : Network.is_server_dead (Network.delete_server eps server.name)
        end_name server.name server.id = some true := by
      simp [Network.is_server_dead, Network.delete_server, mapInsert, h]
    exact runProcessor_ok_dead _ _ _ _ _ _ _ _ _ hok hdead

theorem is_server_dead_spec_witness :
    Network.is_server_dead epsB "e" "zzz" 0 = some true ∧
    runProcessor (Network.delete_server epsB srvA.name) "e" "junk.handler4"
        [1] true (ProcessState.Dispatch none srvA false none) =
      some ⟨[Except.error RpcError.Timeout],
            some { srvA with count := srvA.count + 1 }, []⟩ :=
  ⟨(is_server_dead_spec epsB "e" "zzz" 0 true rfl).1.mpr
     (Or.inr (Or.inl rfl)),
   by
     rw [(is_server_dead_spec epsB "e" srvA.name 0 true rfl).2 srvA
       "junk.handler4" [1] [0, 1] none none rfl]
     rfl⟩

/-- C4: with the endpoint enabled, a server mounted and `reliable` false,
a request-drop draw `r1 % 1000 < 100` means the envelope is never
dispatched: the state is `Timeout` with the previously drawn short delay
`d1 = r0 % 27 < 27`, and running it sends `Err(Timeout)` after paying
`d1`, touching no server. -/
theorem request_drop_spec (info : EndInfo) (server : ServerCore)
    (long_delays : Bool) (r0 r1 : Nat) (rest : List Nat)
    (hen : info.enabled = true) (hsrv : info.server = some server)
    (hrel : info.reliable = false) (hdrop : r1 % 1000 < 100) :
    Network.process_rpc info long_delays (r0 :: r1 :: rest) =
      ProcessState.Timeout (r0 % 27) ∧
    r0 % 27 < 27 ∧
    (∀ (eps : Endpoints) (end_name fq_name : String) (req : List Nat),
      runProcessor eps end_name fq_name req true
          (ProcessState.Timeout (r0 % 27)) =
        some ⟨[Except.error RpcError.Timeout], none, [r0 % 27]⟩) := by
  refine ⟨?_, Nat.mod_lt _ (by norm_num), fun eps en fq req => rfl⟩
  simp [Network.process_rpc, hen, hsrv, hrel, rngNext, hdrop]

/-- An enabled, unreliable snapshot holding `srvA`. -/
def infoU : EndInfo :=
  { enabled := true, reliable := false, long_reordering := false,
    server := some srvA }

theorem request_drop_spec_witness :
    Network.process_rpc infoU false [5, 42] = ProcessState.Timeout (5 % 27) ∧
    runProcessor epsEmpty "w4" "m" [] true (ProcessState.Timeout (5 % 27)) =
      some ⟨[Except.error RpcError.Timeout], none, [5 % 27]⟩ :=
  ⟨(request_drop_spec infoU srvA false 5 42 [] rfl rfl rfl (by norm_num)).1,
   (request_drop_spec infoU srvA false 5 42 [] rfl rfl rfl
     (by norm_num)).2.2 epsEmpty "w4" "m" []⟩

/-- C5: an envelope whose snapshot has the endpoint disabled or no
mounted server dispatches to no server and replies `Err(Timeout)` after
a delay drawn from [0, 7000) ms when `long_delays` is set, else from
[0, 100) ms. -/
theorem dead_end_timeout (info : EndInfo) (long_delays : Bool) (r0 : Nat)
    (rest : List Nat) (h : info.enabled = false ∨ info.server = none) :
    Network.process_rpc info long_delays (r0 :: rest) =
      ProcessState.Timeout (if long_delays then r0 % 7000 else r0 % 100) ∧
    (if long_delays then r0 % 7000 < 7000 else r0 % 100 < 100) ∧
    (∀ (eps : Endpoints) (end_name fq_name : String) (req : List Nat),
      runProcessor eps end_name fq_name req true
          (ProcessState.Timeout
            (if long_delays then r0 % 7000 else r0 % 100)) =
        some ⟨[Except.error RpcError.Timeout], none,
              [if long_delays then r0 % 7000 else r0 % 100]⟩) := by
  refine ⟨?_, ?_, fun eps en fq req => rfl⟩
  · rcases hs : info.server with _ | s
    · cases he : info.enabled <;>
        simp [Network.process_rpc, hs, he, rngNext]
    · rcases h with h | h
      · simp [Network.process_rpc, hs, h, rngNext]
      · rw [hs] at h
        cases h
  · cases long_delays <;> simp <;> exact Nat.mod_lt _ (by norm_num)

/-- A disabled snapshot holding `srvA`. -/
def infoD : EndInfo :=
  { enabled := false, reliable := true, long_reordering := false,
    server := some srvA }

theorem dead_end_timeout_witness :
    Network.process_rpc infoD true [123] = ProcessState.Timeout (123 % 7000) ∧
    runProcessor epsEmpty "w5" "m" [] true (ProcessState.Timeout (123 % 7000)) =
      some ⟨[Except.error RpcError.Timeout], none, [123 % 7000]⟩ := by
  have h := dead_end_timeout infoD true 123 [] (Or.inl rfl)
  exact ⟨h.1, h.2.2 epsEmpty "w5" "m" []⟩

/-- C6: building a second server after a first strictly increases the id
(the ids come from the monotonic allocator at build time); `add_server`
under the same name overwrites any prior entry, tombstone included; and
an in-flight processor still holding the first server replies
`Err(Timeout)` instead of delivering its otherwise successful reply. -/
theorem server_rebind (b1 b2 : ServerBuilder) (alloc : Nat)
    (hname : b2.name = b1.name) :
    (ServerBuilder.build b1 alloc).1.id <
      (ServerBuilder.build b2 (ServerBuilder.build b1 alloc).2).1.id ∧
    (∀ eps : Endpoints,
      (Network.add_server eps
          (ServerBuilder.build b2 (ServerBuilder.build b1 alloc).2).1).servers
          (ServerBuilder.build b1 alloc).1.name =
        some (some
          (ServerBuilder.build b2 (ServerBuilder.build b1 alloc).2).1)) ∧
    (∀ (eps : Endpoints) (end_name fq_name : String) (req buf : List Nat)
        (d reord : Option Nat),
      eps.enabled end_name = some true →
      (Server.dispatch (ServerBuilder.build b1 alloc).1 fq_name req).1 =
        Except.ok buf →
      runProcessor
          (Network.add_server eps
            (ServerBuilder.build b2 (ServerBuilder.build b1 alloc).2).1)
          end_name fq_name req true
          (ProcessState.Dispatch d (ServerBuilder.build b1 alloc).1 false
            reord) =
        some ⟨[Except.error RpcError.Timeout],
              some (Server.dispatch (ServerBuilder.build b1 alloc).1 fq_name
                req).2,
              d.toList⟩) := by
  refine ⟨by simp [ServerBuilder.build], ?_, ?_⟩
  · intro eps
    simp [Network.add_server, ServerBuilder.build, mapInsert, hname]
  · intro eps end_name fq_name req buf d reord henb hok
    have hdead : Network.is_server_dead
        (Network.add_server eps
          (ServerBuilder.build b2 (ServerBuilder.build b1 alloc).2).1)
        end_name (ServerBuilder.build b1 alloc).1.name
        (ServerBuilder.build b1 alloc).1.id = some true := by
      simp [Network.is_server_dead, Network.add_server, ServerBuilder.build,
        mapInsert, hname, henb, bne_iff_ne]
    exact runProcessor_ok_dead _ _ _ _ _ _ _ _ _ hok hdead

/-- A builder for `srvA`. -/
def bldA : ServerBuilder :=
  { name := "test", services := mapInsert (fun _ => none) "junk.handler4" hOk }

theorem server_rebind_witness :
    (ServerBuilder.build bldA 0).1.id <
      (ServerBuilder.build bldA (ServerBuilder.build bldA 0).2).1.id ∧
    (Network.add_server epsEmpty
        (ServerBuilder.build bldA (ServerBuilder.build bldA 0).2).1).servers
        (ServerBuilder.build bldA 0).1.name =
      some (some (ServerBuilder.build bldA (ServerBuilder.build bldA 0).2).1) ∧
    runProcessor
        (Network.add_server (Network.enable epsEmpty "e" true)
          (ServerBuilder.build bldA (ServerBuilder.build bldA 0).2).1)
        "e" "junk.handler4" [1] true
        (ProcessState.Dispatch none (ServerBuilder.build bldA 0).1 false
          none) =
      some ⟨[Except.error RpcError.Timeout],
            some (Server.dispatch (ServerBuilder.build bldA 0).1
              "junk.handler4" [1]).2, []⟩ :=
  ⟨(server_rebind bldA bldA 0 rfl).1,
   (server_rebind bldA bldA 0 rfl).2.1 epsEmpty,
   (server_rebind bldA bldA 0 rfl).2.2 (Network.enable epsEmpty "e" true)
     "e" "junk.handler4" [1] [0, 1] none none rfl rfl⟩
